import Mathlib

/-!
# Verification of `awsrestore` (`src/awsrestore/vault.py`, `src/awsrestore/__init__.py`)

A shallow embedding of the `Vault` facade class.  Every method of the class is a
straight-line translation of its arguments into one or more outbound calls to the
AWS Backup service (via a `boto3` client).  We model the external client as an
oracle (`Client`, a record of response functions) and each method as a pure
function returning the list of outbound API calls it performs, in order,
together with its Python return value.

Python-specific semantics that the embedding must capture faithfully:
* `datetime` values are modelled as integer timestamps (`PyDateTime := Int`);
  only their ordering and identity matter to the claims.
* A parameter that may hold Python `None` is an `Option String`; Python
  truthiness of such a value (`if kms_key:`) is `pyTruthy`; Python's rendering
  of `None` inside an f-string is `pyOptStr`.
* Default parameter expressions are evaluated ONCE, when the `class Vault`
  body executes (module import time), not per call.  `DefEnv` is the
  import-time environment and `VaultClassDefaults` the captured defaults.
* `int(x/1024/1024/1024)` in `_get_vol_size` uses Python float (true)
  division: the int `x` is first correctly rounded to an IEEE-754 double
  (round to nearest, ties to even, 53-bit significand, modelled by `round53`),
  after which the three divisions by 1024 are exact (each only shifts the
  binary exponent), and `int(...)` truncates toward zero (= floor, the value
  being nonnegative).  Hence the result is `round53 x / 2 ^ 30` in `Nat`.
-/

namespace AwsRestore

/-- Python `datetime` values, as integer timestamps: the claims only use their
ordering and equality. -/
abbrev PyDateTime := Int

/-- Python rendering of an `Optional[str]` inside an f-string:
`None` prints as the literal text `None`. -/
def pyOptStr : Option String → String
  | some s => s
  | none => "None"

/-- Python truthiness of an `Optional[str]`: `None` and the empty string are
falsy, every other string is truthy. -/
def pyTruthy : Option String → Bool
  | some s => s ≠ ""
  | none => false

/-- Response of `describe_recovery_point` (the fields the code reads:
`IsEncrypted`, `EncryptionKeyArn`, `BackupSizeInBytes`). -/
structure RecoveryPointDesc where
  isEncrypted : Bool
  encryptionKeyArn : String
  backupSizeInBytes : Nat
  deriving Repr, DecidableEq

/-- Request sent by `list_recovery_points_by_backup_vault`.  `byResourceType`
is `none` when the keyword is omitted (the `resource_type == 'All'` branch). -/
structure ListReq where
  backupVaultName : String
  byResourceType : Option String
  byCreatedBefore : PyDateTime
  byCreatedAfter : PyDateTime
  deriving Repr, DecidableEq

/-- Opaque response of `list_recovery_points_by_backup_vault` (returned verbatim). -/
structure ListResp where
  raw : String
  deriving Repr, DecidableEq

/-- Request sent by `start_copy_job`. -/
structure CopyReq where
  recoveryPointArn : String
  sourceBackupVaultName : String
  destinationBackupVaultArn : String
  iamRoleArn : String
  deleteAfterDays : Int
  deriving Repr, DecidableEq

/-- Opaque response of `start_copy_job` (returned verbatim). -/
structure CopyResp where
  raw : String
  deriving Repr, DecidableEq

/-- A restore-job `Metadata` dict: string keys to values that may be Python
`None` (the `kmskeyid` entry holds the `Optional[str]` variable `kms_key`). -/
abbrev Metadata := List (String × Option String)

/-- Request sent by `start_restore_job`. -/
structure RestoreReq where
  recoveryPointArn : String
  metadata : Metadata
  iamRoleArn : String
  copySourceTags : Bool
  deriving Repr, DecidableEq

/-- Response of `start_restore_job`; the code reads its `RestoreJobId`. -/
structure RestoreAck where
  restoreJobId : String
  deriving Repr, DecidableEq

/-- Opaque response of `describe_restore_job` (returned verbatim). -/
structure RestoreJobStatus where
  raw : String
  deriving Repr, DecidableEq

/-- One outbound call to the external backup service, with its request. -/
inductive ApiCall where
  | listRecoveryPointsByBackupVault (req : ListReq)
  | describeRecoveryPoint (backupVaultName recoveryPointArn : String)
  | startCopyJob (req : CopyReq)
  | startRestoreJob (req : RestoreReq)
  | describeRestoreJob (restoreJobId : String)
  deriving Repr, DecidableEq

/-- The external backup service, as a deterministic oracle giving the response
to each request.  The code under verification never inspects responses beyond
the fields modelled here. -/
structure Client where
  listRecoveryPointsByBackupVault : ListReq → ListResp
  describeRecoveryPoint : String → String → RecoveryPointDesc
  startCopyJob : CopyReq → CopyResp
  startRestoreJob : RestoreReq → RestoreAck
  describeRestoreJob : String → RestoreJobStatus

/-- The state of a constructed `Vault` object: the three fields `__init__`
assigns (`self.client` is the oracle, passed separately).  `account` is an
`Option String` because the default value is
`get_caller_identity().get('Account')`, whose `.get` may yield `None`. -/
structure Vault where
  vault_name : String
  account : Option String
  region : String
  deriving Repr, DecidableEq

/-- Bit-length loop with explicit fuel (kernel-reducible). -/
def bitLenAux : Nat → Nat → Nat
  | 0, _ => 0
  | fuel + 1, n => if n = 0 then 0 else bitLenAux fuel (n / 2) + 1

/-- Number of binary digits of `n` (`0` for `n = 0`); `n` itself bounds the
recursion depth, so `n` is used as fuel. -/
def bitLen (n : Nat) : Nat := bitLenAux n n

/-- CPython's conversion of a nonnegative `int` to an IEEE-754 double: correct
rounding to a 53-bit significand, round to nearest, ties to even.  Exact
(identity) below `2 ^ 53`.  Used to model the float division in
`_get_vol_size`. -/
def round53 (n : Nat) : Nat :=
  if n < 2 ^ 53 then n
  else
    let k := bitLen n - 53
    let q := n / 2 ^ k
    let r := n % 2 ^ k
    let half := 2 ^ (k - 1)
    if r < half then q * 2 ^ k
    else if half < r then (q + 1) * 2 ^ k
    else if q % 2 = 0 then q * 2 ^ k else (q + 1) * 2 ^ k

/-- The role ARN f-string
`f'arn:aws:iam::{self.account}:role/service-role/AWSBackupDefaultServiceRole'`,
used identically by `copy_backups`, `restore_ebs` and `restore_ec2`. -/
def serviceRoleArn (account : Option String) : String :=
  "arn:aws:iam::" ++ pyOptStr account ++ ":role/service-role/AWSBackupDefaultServiceRole"

/-- `Vault._describe_backup`: one `describe_recovery_point` call, response
returned verbatim. -/
def Vault.describe_backup (v : Vault) (c : Client) (recovery_point : String) :
    List ApiCall × RecoveryPointDesc :=
  ([.describeRecoveryPoint v.vault_name recovery_point],
   c.describeRecoveryPoint v.vault_name recovery_point)

/-- `Vault._get_vol_size`: one `describe_recovery_point` call, then
`int(vol_size['BackupSizeInBytes']/1024/1024/1024)` — Python float division,
see `round53`. -/
def Vault.get_vol_size (v : Vault) (c : Client) (recovery_point : String) :
    List ApiCall × Nat :=
  ([.describeRecoveryPoint v.vault_name recovery_point],
   round53 (c.describeRecoveryPoint v.vault_name recovery_point).backupSizeInBytes / 2 ^ 30)

/-- `Vault.list_backups` body: branch on `resource_type == 'All'` and issue a
single `list_recovery_points_by_backup_vault` call, with `ByResourceType`
present only in the `else` branch.  There is no validation of the date range:
every execution issues the external call. -/
def Vault.list_backups (v : Vault) (c : Client) (resource_type : String)
    (created_before created_after : PyDateTime) : List ApiCall × ListResp :=
  let req : ListReq :=
    if resource_type = "All" then
      { backupVaultName := v.vault_name
        byResourceType := none
        byCreatedBefore := created_before
        byCreatedAfter := created_after }
    else
      { backupVaultName := v.vault_name
        byResourceType := some resource_type
        byCreatedBefore := created_before
        byCreatedAfter := created_after }
  ([.listRecoveryPointsByBackupVault req], c.listRecoveryPointsByBackupVault req)

/-- `Vault.copy_backups` body: one `start_copy_job` call.  The destination
vault ARN f-string is
`f'arn:aws:backup:{region}:{dest_account}:backup-vault:{destination_vault}'`. -/
def Vault.copy_backups (v : Vault) (c : Client) (destination_vault recovery_point : String)
    (region : String) (dest_account : Option String) (retention_period : Int) :
    List ApiCall × CopyResp :=
  let req : CopyReq :=
    { recoveryPointArn := recovery_point
      sourceBackupVaultName := v.vault_name
      destinationBackupVaultArn :=
        "arn:aws:backup:" ++ region ++ ":" ++ pyOptStr dest_account ++
          ":backup-vault:" ++ destination_vault
      iamRoleArn := serviceRoleArn v.account
      deleteAfterDays := retention_period }
  ([.startCopyJob req], c.startCopyJob req)

/-- `Vault.restore_ebs` body, in source order:
1. `rec_point_desc = self._describe_backup(recovery_point)` (external call 1);
2. `encrypted = 'true' / 'false'` from `IsEncrypted`;
3. if `encrypted == 'true' and kms_key == None`, adopt `EncryptionKeyArn`;
4. build `metadata`, whose `volumesize` entry evaluates
   `self._get_vol_size(recovery_point)` (external call 2, made inside either
   branch of the dict construction — hoisted here as a `let`, preserving the
   call order); the `kmskeyid` entry is present iff
   `encrypted == 'true' or kms_key` (Python truthiness);
5. `start_restore_job` (external call 3);
6. `describe_restore_job` on the returned `RestoreJobId` (external call 4),
   whose response is what the method returns. -/
def Vault.restore_ebs (v : Vault) (c : Client) (recovery_point az iops : String)
    (kms_key : Option String) (throughput vol_type : String) :
    List ApiCall × RestoreJobStatus :=
  let d := v.describe_backup c recovery_point
  let rec_point_desc := d.2
  let encrypted := if rec_point_desc.isEncrypted then "true" else "false"
  let kms_key :=
    if encrypted = "true" ∧ kms_key = none then some rec_point_desc.encryptionKeyArn
    else kms_key
  let g := v.get_vol_size c recovery_point
  let metadata : Metadata :=
    if encrypted = "true" ∨ pyTruthy kms_key then
      [("availabilityzone", some az), ("encrypted", some encrypted), ("iops", some iops),
       ("kmskeyid", kms_key), ("throughput", some throughput),
       ("volumesize", some (toString g.2)), ("volumetype", some vol_type)]
    else
      [("availabilityzone", some az), ("encrypted", some encrypted), ("iops", some iops),
       ("throughput", some throughput),
       ("volumesize", some (toString g.2)), ("volumetype", some vol_type)]
  let req : RestoreReq :=
    { recoveryPointArn := recovery_point
      metadata := metadata
      iamRoleArn := serviceRoleArn v.account
      copySourceTags := true }
  let response := c.startRestoreJob req
  let restore := c.describeRestoreJob response.restoreJobId
  (d.1 ++ g.1 ++ [.startRestoreJob req, .describeRestoreJob response.restoreJobId], restore)

/-- `Vault.restore_ec2` body: build the metadata dict directly from the
arguments and issue a single `start_restore_job` call; its response is
returned verbatim (no `describe_restore_job`). -/
def Vault.restore_ec2 (v : Vault) (c : Client)
    (recovery_point instance_type key_name vpc_id subnet_id : String) :
    List ApiCall × RestoreAck :=
  let metadata : Metadata :=
    [("instancetype", some instance_type), ("keyname", some key_name),
     ("vpcid", some vpc_id), ("subnetid", some subnet_id)]
  let req : RestoreReq :=
    { recoveryPointArn := recovery_point
      metadata := metadata
      iamRoleArn := serviceRoleArn v.account
      copySourceTags := true }
  let response := c.startRestoreJob req
  ([.startRestoreJob req], response)

/-- `datetime(2015, 1, 1)` as a UTC epoch timestamp (the `created_after`
default of `list_backups`). -/
def datetime2015 : PyDateTime := 1420070400

/-- The environment at module import time (when `class Vault` is defined):
the clock value `datetime.now(timezone.utc)` and the result of
`boto3.client('sts').get_caller_identity().get('Account')` (`.get` yields
`None` when the key is absent).  Default parameter expressions of the class
are evaluated exactly once, against this environment. -/
structure DefEnv where
  nowUtc : PyDateTime
  stsAccount : Option String
  deriving Repr, DecidableEq

/-- The environment at the time of a later call: the current clock and the
identity service's current state.  The methods of `Vault` never consult it —
that is exactly what claims C3 and C10 are about. -/
structure CallEnv where
  nowUtc : PyDateTime
  stsAvailable : Bool
  stsAccount : Option String
  deriving Repr, DecidableEq

/-- The default parameter values captured when `class Vault` is defined:
`__init__`'s `account`, `list_backups`'s `created_before` / `created_after`,
and `copy_backups`'s `dest_account`. -/
structure VaultClassDefaults where
  init_account : Option String
  list_backups_created_before : PyDateTime
  list_backups_created_after : PyDateTime
  copy_backups_dest_account : Option String
  deriving Repr, DecidableEq

/-- Executing the `class Vault` body: each default expression is evaluated
once against the import-time environment. -/
def defineVaultClass (env : DefEnv) : VaultClassDefaults :=
  { init_account := env.stsAccount
    list_backups_created_before := env.nowUtc
    list_backups_created_after := datetime2015
    copy_backups_dest_account := env.stsAccount }

/-- `Vault(vault_name, region=...)` with `account` omitted: `__init__` only
assigns the three fields; the `account` default is the value captured at class
definition time.  The call-time environment `env` is never consulted, and
construction always completes — there is no error path. -/
def constructVaultDefault (cls : VaultClassDefaults) (env : CallEnv)
    (vault_name region : String) : Vault :=
  { vault_name := vault_name, account := cls.init_account, region := region }

/-- `check_aws_credentials` from `__init__.py`: attempt
`get_caller_identity()`; on any exception, print `No valid credentials found`
and fall through.  It returns normally in every case (the exception is
swallowed); the result is the list of printed lines. -/
def check_aws_credentials (env : CallEnv) : List String :=
  if env.stsAvailable then [] else ["No valid credentials found"]

/-- `vault.list_backups(...)` called with `created_before` omitted: Python
supplies the default captured at class definition time; the body never reads
the current clock (`env` unused). -/
def list_backups_defaultBefore (cls : VaultClassDefaults) (env : CallEnv)
    (v : Vault) (c : Client) (resource_type : String) (created_after : PyDateTime) :
    List ApiCall × ListResp :=
  v.list_backups c resource_type cls.list_backups_created_before created_after

/-- `vault.copy_backups(...)` called with `dest_account` omitted: Python
supplies the account id resolved once at class definition time; the body never
re-contacts the identity service (`env` unused). -/
def copy_backups_defaultAccount (cls : VaultClassDefaults) (env : CallEnv)
    (v : Vault) (c : Client) (destination_vault recovery_point region : String)
    (retention_period : Int) : List ApiCall × CopyResp :=
  v.copy_backups c destination_vault recovery_point region
    cls.copy_backups_dest_account retention_period

/-! ## Trace observations -/

/-- The number of `describe_recovery_point` calls issued strictly before the
first `start_restore_job` call of a trace. -/
def describeCallsBeforeSubmit : List ApiCall → Nat
  | [] => 0
  | .startRestoreJob _ :: _ => 0
  | .describeRecoveryPoint _ _ :: rest => describeCallsBeforeSubmit rest + 1
  | _ :: rest => describeCallsBeforeSubmit rest

/-- The `start_restore_job` requests of a trace, in order. -/
def submittedRestoreReqs (t : List ApiCall) : List RestoreReq :=
  t.filterMap fun call =>
    match call with
    | .startRestoreJob r => some r
    | _ => none

/-- The metadata dicts of the `start_restore_job` requests of a trace. -/
def submittedMetadata (t : List ApiCall) : List Metadata :=
  (submittedRestoreReqs t).map RestoreReq.metadata

/-- The `start_copy_job` requests of a trace, in order. -/
def submittedCopyReqs (t : List ApiCall) : List CopyReq :=
  t.filterMap fun call =>
    match call with
    | .startCopyJob r => some r
    | _ => none

/-- The `list_recovery_points_by_backup_vault` requests of a trace, in order. -/
def sentListReqs (t : List ApiCall) : List ListReq :=
  t.filterMap fun call =>
    match call with
    | .listRecoveryPointsByBackupVault r => some r
    | _ => none

/-- The number of `describe_restore_job` calls in a trace. -/
def describeRestoreJobCalls (t : List ApiCall) : Nat :=
  (t.filter fun call =>
    match call with
    | .describeRestoreJob _ => true
    | _ => false).length

/-! ## Concrete fixtures for witnesses and counterexamples -/

/-- A vault object as `Vault('testvault')` would build it after a class
definition that resolved account `111111111111`. -/
def vault0 : Vault :=
  { vault_name := "testvault", account := some "111111111111", region := "us-east-1" }

/-- An oracle whose recovery points match the spec's scenario `rp-1`:
encrypted, key `key-A`, size 10737418240 bytes (10 GiB). -/
def rp1Client : Client :=
  { listRecoveryPointsByBackupVault := fun _ => { raw := "list" }
    describeRecoveryPoint := fun _ _ =>
      { isEncrypted := true, encryptionKeyArn := "key-A", backupSizeInBytes := 10737418240 }
    startCopyJob := fun _ => { raw := "copy" }
    startRestoreJob := fun _ => { restoreJobId := "job-1" }
    describeRestoreJob := fun j => { raw := "status-of-" ++ j } }

/-- An oracle whose recovery points are unencrypted, 10 GiB. -/
def plainClient : Client :=
  { listRecoveryPointsByBackupVault := fun _ => { raw := "list" }
    describeRecoveryPoint := fun _ _ =>
      { isEncrypted := false, encryptionKeyArn := "", backupSizeInBytes := 10737418240 }
    startCopyJob := fun _ => { raw := "copy" }
    startRestoreJob := fun _ => { restoreJobId := "job-2" }
    describeRestoreJob := fun j => { raw := "status-of-" ++ j } }

/-- An oracle whose recovery points are unencrypted and report size
`2 ^ 54 - 1` bytes — a value at which CPython's float division rounds up. -/
def bigClient : Client :=
  { listRecoveryPointsByBackupVault := fun _ => { raw := "list" }
    describeRecoveryPoint := fun _ _ =>
      { isEncrypted := false, encryptionKeyArn := "", backupSizeInBytes := 18014398509481983 }
    startCopyJob := fun _ => { raw := "copy" }
    startRestoreJob := fun _ => { restoreJobId := "job-3" }
    describeRestoreJob := fun j => { raw := "status-of-" ++ j } }

/-- An import-time environment: clock at 1700000000, account resolved. -/
def defEnv0 : DefEnv := { nowUtc := 1700000000, stsAccount := some "111111111111" }

/-- A call-time environment in which the identity service is unavailable and
the clock has advanced. -/
def callEnvDown : CallEnv :=
  { nowUtc := 1700009999, stsAvailable := false, stsAccount := none }

/-- A call-time environment in which the identity service is available and
the clock has advanced further. -/
def callEnvUp : CallEnv :=
  { nowUtc := 1700099999, stsAvailable := true, stsAccount := some "222222222222" }

/-- The metadata dict of the first `start_restore_job` request of a trace
(`[]` if none was submitted). -/
def firstSubmittedMetadata (t : List ApiCall) : Metadata :=
  (submittedMetadata t).headD []

/-! ## Theorems -/

/-- `round53` is the identity below `2 ^ 53` (every such int is exactly
representable as a double). -/
theorem round53_of_lt {n : Nat} (h : n < 2 ^ 53) : round53 n = n := by
  simp only [round53]
  rw [if_pos h]

/-- C1 (counterexample): with `created_before = 0` and `created_after = 1`
(so `createdAfter > createdBefore`), `list_backups` does not fail: it issues
the list request to the external service, so an external call does occur on
this path and no `InvalidArgument` error exists in the code. -/
theorem list_backups_counterexample_no_validation :
    (1 : PyDateTime) > 0 ∧
    (vault0.list_backups rp1Client "All" 0 1).1 =
      [.listRecoveryPointsByBackupVault
        { backupVaultName := "testvault", byResourceType := none,
          byCreatedBefore := 0, byCreatedAfter := 1 }] :=
  ⟨by decide, rfl⟩

/-- C1 (amended): `list_backups` performs no date-range validation: even when
`createdAfter > createdBefore`, the single list request is issued to the
external service carrying exactly those bounds. -/
theorem list_backups_issues_request_on_inverted_range
    (v : Vault) (c : Client) (rt : String) (b a : PyDateTime) (h : a > b) :
    sentListReqs (v.list_backups c rt b a).1 =
      [{ backupVaultName := v.vault_name,
         byResourceType := if rt = "All" then none else some rt,
         byCreatedBefore := b, byCreatedAfter := a }] := by
  unfold Vault.list_backups sentListReqs
  split <;> simp_all

/-- C1 (amended, witness): concrete instance with `createdAfter = 1 >
createdBefore = 0`. -/
theorem list_backups_issues_request_on_inverted_range_witness :
    sentListReqs (vault0.list_backups rp1Client "EC2" 0 1).1 =
      [{ backupVaultName := "testvault",
         byResourceType := if ("EC2" : String) = "All" then none else some "EC2",
         byCreatedBefore := 0, byCreatedAfter := 1 }] := by
  have h := list_backups_issues_request_on_inverted_range vault0 rp1Client "EC2" 0 1
    (by decide)
  simpa using h

/-- C9: for every valid date range, `list_backups` issues exactly one list
request; it omits the resource-type filter when `resource_type` is the
sentinel `'All'` and carries exactly the given filter otherwise, while the
vault name and both date bounds are the same in either case. -/
theorem list_backups_filter_policy
    (v : Vault) (c : Client) (rt : String) (b a : PyDateTime) (h : a ≤ b) :
    (v.list_backups c rt b a).1 =
      [.listRecoveryPointsByBackupVault
        { backupVaultName := v.vault_name,
          byResourceType := if rt = "All" then none else some rt,
          byCreatedBefore := b, byCreatedAfter := a }] := by
  unfold Vault.list_backups
  split <;> simp_all

/-- C9 (witness): concrete instances of both branches with a valid range. -/
theorem list_backups_filter_policy_witness :
    (vault0.list_backups rp1Client "All" 5 1).1 =
      [.listRecoveryPointsByBackupVault
        { backupVaultName := "testvault",
          byResourceType := if ("All" : String) = "All" then none else some "All",
          byCreatedBefore := 5, byCreatedAfter := 1 }] ∧
    (vault0.list_backups rp1Client "EBS" 5 1).1 =
      [.listRecoveryPointsByBackupVault
        { backupVaultName := "testvault",
          byResourceType := if ("EBS" : String) = "All" then none else some "EBS",
          byCreatedBefore := 5, byCreatedAfter := 1 }] :=
  ⟨list_backups_filter_policy vault0 rp1Client "All" 5 1 (by decide),
   list_backups_filter_policy vault0 rp1Client "EBS" 5 1 (by decide)⟩

/-- C10: the time- and identity-dependent defaults are captured once at class
definition time.  Two `list_backups` calls omitting `created_before`, made in
arbitrary (and arbitrarily far apart) call-time environments, send identical
requests, whose created-before bound is the definition-time clock value; two
`copy_backups` calls omitting `dest_account` likewise behave identically, and
the default account they use is the one resolved at definition time. -/
theorem defaults_captured_at_class_definition
    (env : DefEnv) (e1 e2 : CallEnv) (v : Vault) (c : Client)
    (rt : String) (ca : PyDateTime) (dv rp rg : String) (ret : Int) :
    list_backups_defaultBefore (defineVaultClass env) e1 v c rt ca =
      list_backups_defaultBefore (defineVaultClass env) e2 v c rt ca ∧
    (defineVaultClass env).list_backups_created_before = env.nowUtc ∧
    copy_backups_defaultAccount (defineVaultClass env) e1 v c dv rp rg ret =
      copy_backups_defaultAccount (defineVaultClass env) e2 v c dv rp rg ret ∧
    (defineVaultClass env).copy_backups_dest_account = env.stsAccount :=
  ⟨rfl, rfl, rfl, rfl⟩

/-- C3 (counterexample): with the identity service unavailable in the
construction-time environment (`callEnvDown.stsAvailable = false`),
`Vault('testvault')` still completes, yielding the account id captured at
class-definition time; and the module-level credential check merely prints
`No valid credentials found` and returns — no `CredentialsUnavailable` error
is raised anywhere. -/
theorem construction_counterexample_no_credentials_error :
    callEnvDown.stsAvailable = false ∧
    constructVaultDefault (defineVaultClass defEnv0) callEnvDown "testvault" "us-east-1" =
      { vault_name := "testvault", account := some "111111111111", region := "us-east-1" } ∧
    check_aws_credentials callEnvDown = ["No valid credentials found"] :=
  ⟨rfl, rfl, rfl⟩

/-- C3 (amended): the account id is resolved once, when the class is defined.
Construction never contacts the identity service and has no failure path: it
completes with the definition-time account id whatever the call-time
environment, and `check_aws_credentials` swallows identity failures (it
returns normally in every environment, at most printing a message). -/
theorem construction_ignores_calltime_identity
    (cls : VaultClassDefaults) (e1 e2 : CallEnv) (n r : String) :
    constructVaultDefault cls e1 n r = constructVaultDefault cls e2 n r ∧
    (constructVaultDefault cls e1 n r).account = cls.init_account ∧
    (check_aws_credentials e1 = [] ∨
      check_aws_credentials e1 = ["No valid credentials found"]) := by
  refine ⟨rfl, rfl, ?_⟩
  unfold check_aws_credentials
  split <;> simp

/-- C5 (counterexample): at region `us-east-1`, account `123456789012`, vault
name `dest`, the constructed destination reference is
`arn:aws:backup:us-east-1:123456789012:backup-vault:dest`, which differs from
the claimed template instance `vault:us-east-1:123456789012:backup-vault:dest`. -/
theorem copy_backups_arn_counterexample :
    (submittedCopyReqs (vault0.copy_backups rp1Client "dest" "rp-arn" "us-east-1"
        (some "123456789012") 35).1).map CopyReq.destinationBackupVaultArn =
      ["arn:aws:backup:us-east-1:123456789012:backup-vault:dest"] ∧
    ("arn:aws:backup:us-east-1:123456789012:backup-vault:dest" : String) ≠
      "vault:us-east-1:123456789012:backup-vault:dest" :=
  ⟨rfl, by decide⟩

/-- C5 (amended): for every region, account id and destination vault name,
the destination vault reference sent by `copy_backups` is the template
`arn:aws:backup:<region>:<account>:backup-vault:<name>` with the values
substituted and the literal separators preserved. -/
theorem copy_backups_arn_template
    (v : Vault) (c : Client) (dv rp rg acct : String) (ret : Int) :
    (submittedCopyReqs (v.copy_backups c dv rp rg (some acct) ret).1).map
        CopyReq.destinationBackupVaultArn =
      ["arn:aws:backup:" ++ rg ++ ":" ++ acct ++ ":backup-vault:" ++ dv] :=
  rfl

/-- C2 (counterexample): on the concrete recovery point `rp-1`, `restore_ebs`
issues two `describe_recovery_point` calls before submitting the restore job
(one from `_describe_backup`, one from `_get_vol_size` while building the
metadata) — not exactly one as claimed. -/
theorem restore_ebs_two_describe_calls_counterexample :
    describeCallsBeforeSubmit (vault0.restore_ebs rp1Client "rp-1" "us-east-1a"
      "3000" none "125" "gp3").1 = 2 ∧
    ¬ describeCallsBeforeSubmit (vault0.restore_ebs rp1Client "rp-1" "us-east-1a"
      "3000" none "125" "gp3").1 = 1 :=
  ⟨by decide, by decide⟩

/-- C2 (amended): for every recovery point, `restore_ec2` performs no
describe-recovery-point read call before submitting its restore job, while
`restore_ebs` performs exactly two such calls before submitting (one from
`_describe_backup` and one from `_get_vol_size`). -/
theorem restore_describe_call_counts
    (v : Vault) (c : Client) (rp az iops : String) (kms : Option String)
    (thr vt it kn vpc sub : String) :
    describeCallsBeforeSubmit (v.restore_ebs c rp az iops kms thr vt).1 = 2 ∧
    describeCallsBeforeSubmit (v.restore_ec2 c rp it kn vpc sub).1 = 0 :=
  ⟨rfl, rfl⟩

/-- C4 (counterexample): with a reported size of `2 ^ 54 - 1` bytes, CPython
first rounds the int to a double (ties-to-even rounds it up to `2 ^ 54`), so
the `volumesize` entry is the string `16777216`, while
`floor(sizeBytes / 2 ^ 30)` renders as `16777215`. -/
theorem restore_ebs_volumesize_float_counterexample :
    List.lookup "volumesize" (firstSubmittedMetadata
      (vault0.restore_ebs bigClient "rp-big" "us-east-1a" "3000" none "125" "gp3").1) =
      some (some "16777216") ∧
    toString ((18014398509481983 : Nat) / 2 ^ 30) = "16777215" ∧
    ("16777216" : String) ≠ "16777215" :=
  ⟨by decide, by decide, by decide⟩

/-- C4 (amended): whenever the reported size is below `2 ^ 53` (so that the
int-to-double conversion in Python's float division is exact), the
`volumesize` entry of the metadata constructed by `restore_ebs` equals
`floor(sizeBytes / 2 ^ 30)` rendered as a decimal string; exactly one restore
job is submitted. -/
theorem restore_ebs_volumesize_floor
    (v : Vault) (c : Client) (rp az iops : String) (kms : Option String)
    (thr vt : String)
    (h : (c.describeRecoveryPoint v.vault_name rp).backupSizeInBytes < 2 ^ 53) :
    (submittedMetadata (v.restore_ebs c rp az iops kms thr vt).1).length = 1 ∧
    List.lookup "volumesize"
        (firstSubmittedMetadata (v.restore_ebs c rp az iops kms thr vt).1) =
      some (some (toString
        ((c.describeRecoveryPoint v.vault_name rp).backupSizeInBytes / 2 ^ 30))) := by
  refine ⟨rfl, ?_⟩
  simp only [Vault.restore_ebs, firstSubmittedMetadata, submittedMetadata,
    submittedRestoreReqs, Vault.describe_backup, Vault.get_vol_size,
    List.filterMap, List.append_eq, List.cons_append, List.nil_append,
    List.map, List.headD]
  rw [round53_of_lt h]
  split <;> (try split) <;> (try split) <;> simp_all [List.lookup]

/-- C4 (amended, witness): the 10 GiB recovery point `rp-1` yields
`volumesize = "10" = toString (10737418240 / 2 ^ 30)`. -/
theorem restore_ebs_volumesize_floor_witness :
    (10737418240 : Nat) < 2 ^ 53 ∧
    List.lookup "volumesize" (firstSubmittedMetadata
        (vault0.restore_ebs rp1Client "rp-1" "us-east-1a" "3000" none "125" "gp3").1) =
      some (some (toString ((10737418240 : Nat) / 2 ^ 30))) :=
  ⟨by decide,
   (restore_ebs_volumesize_floor vault0 rp1Client "rp-1" "us-east-1a" "3000"
     none "125" "gp3" (by decide)).2⟩

/-- C6 (counterexample): with an unencrypted source and the explicitly
supplied key `kms_key = ""` (Python-falsy), the constructed metadata has no
`kmskeyid` entry, although a key was explicitly supplied — the claimed
"if and only if" fails.  (With any non-empty key, e.g. `key-B`, the entry is
present.) -/
theorem restore_ebs_kmskey_empty_string_counterexample :
    List.lookup "kmskeyid" (firstSubmittedMetadata
      (vault0.restore_ebs plainClient "rp-2" "us-east-1a" "3000" (some "") "125" "gp3").1) =
      none ∧
    (submittedMetadata (vault0.restore_ebs plainClient "rp-2" "us-east-1a"
      "3000" (some "") "125" "gp3").1).length = 1 ∧
    List.lookup "kmskeyid" (firstSubmittedMetadata
      (vault0.restore_ebs plainClient "rp-2" "us-east-1a" "3000" (some "key-B") "125" "gp3").1) =
      some (some "key-B") :=
  ⟨by decide, by decide, by decide⟩

/-- C6 (amended): the metadata constructed by `restore_ebs` contains the
`kmskeyid` field if and only if the source recovery point is encrypted or the
caller supplied a Python-truthy (non-`None`, non-empty) `kms_key`; an
explicitly supplied empty-string key counts as absent.  Exactly one restore
job is submitted. -/
theorem restore_ebs_kmskey_presence
    (v : Vault) (c : Client) (rp az iops : String) (kms : Option String)
    (thr vt : String) :
    (submittedMetadata (v.restore_ebs c rp az iops kms thr vt).1).length = 1 ∧
    ((List.lookup "kmskeyid"
        (firstSubmittedMetadata (v.restore_ebs c rp az iops kms thr vt).1)).isSome ↔
      ((c.describeRecoveryPoint v.vault_name rp).isEncrypted = true ∨
        pyTruthy kms = true)) := by
  refine ⟨rfl, ?_⟩
  simp only [Vault.restore_ebs, firstSubmittedMetadata, submittedMetadata,
    submittedRestoreReqs, Vault.describe_backup, Vault.get_vol_size,
    List.filterMap, List.append_eq, List.cons_append, List.nil_append,
    List.map, List.headD]
  by_cases he : (c.describeRecoveryPoint v.vault_name rp).isEncrypted
  · simp [he, List.lookup]
  · cases kms with
    | none => simp [he, pyTruthy, List.lookup]
    | some s =>
      by_cases hs : s = ""
      · simp [he, hs, pyTruthy, List.lookup]
      · simp [he, hs, pyTruthy, List.lookup]

/-- C7: if the source recovery point is encrypted and the caller supplies no
`kms_key`, the metadata adopts the encryption key reported by the source (and
records `encrypted = "true"`); in particular for the scenario recovery point
`rp-1` (encrypted, key `key-A`, 10737418240 bytes) with no caller-supplied
key, the metadata has `encrypted = "true"`, `kmskeyid = "key-A"` and
`volumesize = "10"`. -/
theorem restore_ebs_adopts_source_key
    (v : Vault) (c : Client) (rp az iops thr vt : String)
    (henc : (c.describeRecoveryPoint v.vault_name rp).isEncrypted = true) :
    ((submittedMetadata (v.restore_ebs c rp az iops none thr vt).1).length = 1 ∧
     List.lookup "kmskeyid"
         (firstSubmittedMetadata (v.restore_ebs c rp az iops none thr vt).1) =
       some (some ((c.describeRecoveryPoint v.vault_name rp).encryptionKeyArn)) ∧
     List.lookup "encrypted"
         (firstSubmittedMetadata (v.restore_ebs c rp az iops none thr vt).1) =
       some (some "true")) ∧
    (List.lookup "encrypted" (firstSubmittedMetadata
        (vault0.restore_ebs rp1Client "rp-1" "us-east-1a" "3000" none "125" "gp3").1) =
      some (some "true") ∧
     List.lookup "kmskeyid" (firstSubmittedMetadata
        (vault0.restore_ebs rp1Client "rp-1" "us-east-1a" "3000" none "125" "gp3").1) =
      some (some "key-A") ∧
     List.lookup "volumesize" (firstSubmittedMetadata
        (vault0.restore_ebs rp1Client "rp-1" "us-east-1a" "3000" none "125" "gp3").1) =
      some (some "10")) := by
  refine ⟨⟨rfl, ?_⟩, by decide, by decide, by decide⟩
  simp only [Vault.restore_ebs, firstSubmittedMetadata, submittedMetadata,
    submittedRestoreReqs, Vault.describe_backup, Vault.get_vol_size,
    List.filterMap, List.append_eq, List.cons_append, List.nil_append,
    List.map, List.headD]
  simp [henc, List.lookup]

/-- C7 (witness): the scenario instance itself discharges the encryption
hypothesis: `rp-1` is encrypted, and the metadata adopts `key-A` and records
`encrypted = "true"`. -/
theorem restore_ebs_adopts_source_key_witness :
    (rp1Client.describeRecoveryPoint vault0.vault_name "rp-1").isEncrypted = true ∧
    List.lookup "kmskeyid" (firstSubmittedMetadata
        (vault0.restore_ebs rp1Client "rp-1" "us-east-1a" "3000" none "125" "gp3").1) =
      some (some ((rp1Client.describeRecoveryPoint vault0.vault_name "rp-1").encryptionKeyArn)) :=
  ⟨by decide,
   (restore_ebs_adopts_source_key vault0 rp1Client "rp-1" "us-east-1a" "3000"
     "125" "gp3" (by decide)).1.2.1⟩

/-- C8: `restore_ebs` returns the status obtained by re-fetching the job
after submission — its return value is `describe_restore_job` applied to the
`RestoreJobId` acknowledged for the (single) submitted request, and its trace
contains exactly one `describe_restore_job` call — while `restore_ec2`
returns the raw submission acknowledgment of its (single) submitted request
and never calls `describe_restore_job`. -/
theorem restore_return_value_asymmetry
    (v : Vault) (c : Client) (rp az iops : String) (kms : Option String)
    (thr vt it kn vpc sub : String) :
    ((submittedRestoreReqs (v.restore_ebs c rp az iops kms thr vt).1).map
        (fun r => c.describeRestoreJob (c.startRestoreJob r).restoreJobId) =
      [(v.restore_ebs c rp az iops kms thr vt).2]) ∧
    describeRestoreJobCalls (v.restore_ebs c rp az iops kms thr vt).1 = 1 ∧
    ((submittedRestoreReqs (v.restore_ec2 c rp it kn vpc sub).1).map
        (fun r => c.startRestoreJob r) =
      [(v.restore_ec2 c rp it kn vpc sub).2]) ∧
    describeRestoreJobCalls (v.restore_ec2 c rp it kn vpc sub).1 = 0 :=
  ⟨rfl, rfl, rfl, rfl⟩

end AwsRestore
